import Mathlib

/-
  A shallow embedding of the core of the `global_digital_bank` repository
  (files `account.py` and `banking_system.py`).

  Modelling conventions:
  * Python floats (money) are embedded as rationals `ℚ`.
  * `datetime` values are embedded as natural-number timestamps counted in
    seconds; `d.date()` is embedded as `d / 86400` (the calendar day index),
    `timedelta(minutes=30)` as `1800` seconds, `timedelta(days=7)` as
    `604800` seconds.  Comparisons of a timestamp against `now - 7 days`
    are performed in `ℤ`, mirroring the unbounded datetime arithmetic of Python.
  * The salted PBKDF2 hash `Account._hash_pin` is kept abstract: every
    definition that hashes takes a parameter `H : String → String → String`
    (salt, pin ↦ hex digest).  No claim depends on concrete hash values.
  * `secrets.token_hex(8)` (fresh random salt) is passed in explicitly as an
    argument wherever the source generates one.
  * Exceptions (`ValueError`, `AccountLockedError`) become `Option` results
    and a dedicated outcome type for PIN verification.
  * The Python dict `transaction_categories` (category → counter) is an
    association list initialised over the fixed category enumeration.
-/

namespace GDB

/-- The Python `str.lower()` method, embedded character-wise. -/
def lower (s : String) : String := ⟨s.data.map Char.toLower⟩

/-- The Python `str.endswith(suffix)` method, embedded character-wise. -/
def ends_with (s suffix : String) : Bool := suffix.data.isSuffixOf s.data

/-- One entry of `Account.transactions`: the tuple
`(datetime, type, amount, balance_after, category, description)`. -/
structure Txn where
  time : Nat
  ttype : String
  amount : ℚ
  balance_after : ℚ
  category : String
  description : String
deriving DecidableEq, Repr

/-- The list `Account.TRANSACTION_CATEGORIES` from `account.py`. -/
def TRANSACTION_CATEGORIES : List String :=
  ["DEPOSIT", "WITHDRAWAL", "TRANSFER_IN", "TRANSFER_OUT", "INTEREST", "FEE",
   "PAYMENT", "REFUND", "SALARY", "BILL_PAYMENT", "ONLINE_PURCHASE", "OTHER"]

/-- The mutable state of one `Account` object (`account.py`). -/
structure Account where
  account_number : Nat
  name : String
  age : Nat
  balance : ℚ
  account_type : String
  status : String
  transactions : List Txn
  daily_withdrawals : List (Nat × ℚ)
  daily_limit : ℚ
  transaction_categories : List (String × Nat)
  pin_hash : Option String
  salt : String
  login_attempts : Nat
  last_login_attempt : Option Nat
  locked_until : Option Nat
deriving DecidableEq, Repr

/-- Constructor `Account.__init__` with `pin_hash` and `salt` passed explicitly (the salt
`secrets.token_hex(8)` drawn when the argument is `None` is an explicit
input here). -/
def Account.create_full (account_number : Nat) (name : String) (age : Nat)
    (balance : ℚ) (account_type : String) (pin_hash : Option String)
    (salt : String) : Account :=
  { account_number := account_number
    name := name
    age := age
    balance := balance
    account_type := account_type
    status := "Active"
    transactions := []
    daily_withdrawals := []
    daily_limit := 50000
    transaction_categories := TRANSACTION_CATEGORIES.map (fun c => (c, 0))
    pin_hash := pin_hash
    salt := salt
    login_attempts := 0
    last_login_attempt := none
    locked_until := none }

/-- Constructor `Account.__init__` with the default arguments `pin_hash=None` and a fresh
salt (irrelevant to the claims, embedded as the empty string). -/
def Account.create (account_number : Nat) (name : String) (age : Nat)
    (balance : ℚ) (account_type : String) : Account :=
  Account.create_full account_number name age balance account_type none ""

/-- The Python `pin.isdigit()` check: true iff the string is nonempty and every
character is a digit. -/
def pin_isdigit (pin : String) : Bool :=
  !pin.data.isEmpty && pin.data.all Char.isDigit

/-- Method `Account.set_pin`: raises `ValueError` (here: `none`) unless the PIN is a
4-character numeric string; otherwise regenerates the salt and stores the
salted hash.  `H` is the salted hash function, `fresh_salt` the fresh random
salt the source draws from `secrets.token_hex(8)`. -/
def set_pin (H : String → String → String) (fresh_salt : String)
    (pin : String) (a : Account) : Option Account :=
  if !pin_isdigit pin || pin.length ≠ 4 then none
  else some { a with salt := fresh_salt, pin_hash := some (H fresh_salt pin) }

/-- Outcome of `Account.verify_pin`: `ok` is `return True`, `wrongPin` is
`return False`, `lockedErr msg` is `raise AccountLockedError(msg)`. -/
inductive PinOutcome where
  | ok : PinOutcome
  | wrongPin : PinOutcome
  | lockedErr (msg : String) : PinOutcome
deriving DecidableEq, Repr

/-- The body of `Account.verify_pin` after the lockout gate (from
`if not self.pin_hash:` on). -/
def verify_pin_unlocked (H : String → String → String) (now : Nat)
    (pin : String) (a : Account) : PinOutcome × Account :=
  match a.pin_hash with
  | none => (.ok, a)
  | some stored =>
    if H a.salt pin = stored then (.ok, { a with login_attempts := 0 })
    else
      let a1 := { a with login_attempts := a.login_attempts + 1,
                         last_login_attempt := some now }
      if 3 ≤ a1.login_attempts then
        (.lockedErr "Too many failed attempts. Account locked for 30 minutes.",
         { a1 with locked_until := some (now + 1800) })
      else (.wrongPin, a1)

/-- Method `Account.verify_pin`.  The `(locked_until - now).seconds // 60` of the
source becomes `(t - now) % 86400 / 60` (the `.seconds` field of a positive `timedelta`
is its total seconds modulo one day). -/
def verify_pin (H : String → String → String) (now : Nat) (pin : String)
    (a : Account) : PinOutcome × Account :=
  match a.locked_until with
  | some t =>
    if now < t then
      (.lockedErr ("Account locked. Try again in " ++
         toString ((t - now) % 86400 / 60) ++ " minutes."), a)
    else verify_pin_unlocked H now pin a
  | none => verify_pin_unlocked H now pin a

/-- Method `Account.reset_login_attempts`. -/
def reset_login_attempts (a : Account) : Account :=
  { a with login_attempts := 0, locked_until := none }

/-- Method `Account.get_daily_withdrawal_total` at an explicit calendar date
(`date = now / 86400` embeds "today"). -/
def get_daily_withdrawal_total (date : Nat) (a : Account) : ℚ :=
  ((a.daily_withdrawals.filter (fun p => p.1 / 86400 == date)).map
    (fun p => p.2)).sum

/-- Method `Account.can_withdraw`: the pure policy check, returning the decision and
the human-readable reason string. -/
def can_withdraw (now : Nat) (amount : ℚ) (a : Account) : Bool × String :=
  if a.status ≠ "Active" then (false, "Account is not active.")
  else if amount ≤ 0 then (false, "Withdrawal amount must be positive.")
  else
    let min_balance : ℚ := if lower a.account_type = "savings" then 500 else 1000
    if a.balance - amount < min_balance then
      (false, "Insufficient funds. Minimum balance of " ++ toString min_balance ++
        " must be maintained.")
    else
      let today_total := get_daily_withdrawal_total (now / 86400) a
      if a.daily_limit < today_total + amount then
        (false, "Daily withdrawal limit exceeded. You can withdraw up to " ++
          toString (a.daily_limit - today_total) ++ " more today.")
      else (true, "")

/-- Method `Account.add_withdrawal`: appends a `(now, amount)` event, debits the
balance, then purges events older than 7 days (keeps `d > now - 7 days`,
compared in `ℤ` exactly as Python compares datetimes). -/
def add_withdrawal (now : Nat) (amount : ℚ) (a : Account) : Account :=
  { a with
    balance := a.balance - amount
    daily_withdrawals :=
      (a.daily_withdrawals ++ [(now, amount)]).filter
        (fun p => (now : Int) - 604800 < (p.1 : Int)) }

/-- Method `Account.get_transaction_history`: optional category filter (applied only
for a truthy category belonging to the fixed enumeration) then an optional
`transactions[-limit:]` truncation for a positive limit. -/
def get_transaction_history (lim : Option Nat) (category : Option String)
    (a : Account) : List Txn :=
  let ts := a.transactions
  let ts :=
    match category with
    | some c =>
      if c ≠ "" ∧ c ∈ TRANSACTION_CATEGORIES then
        ts.filter (fun t => t.category == c)
      else ts
    | none => ts
  match lim with
  | some l => if 0 < l then ts.drop (ts.length - l) else ts
  | none => ts

/-- Method `Account.get_transaction_summary`: for each category of the fixed
enumeration with at least one occurrence, the entry
`(category, count, total, average)`. -/
def get_transaction_summary (a : Account) : List (String × Nat × ℚ × ℚ) :=
  TRANSACTION_CATEGORIES.filterMap (fun category =>
    let category_txns := a.transactions.filter (fun t => t.category == category)
    if category_txns.isEmpty then none
    else
      let count := category_txns.length
      let total := (category_txns.map (fun t => t.amount)).sum
      some (category, count, total, if 0 < count then total / (count : ℚ) else 0))

/-- The `self.transaction_categories[category] += 1` counter bump. -/
def bump_category (cat : String) (m : List (String × Nat)) : List (String × Nat) :=
  m.map (fun p => if p.1 = cat then (p.1, p.2 + 1) else p)

/-- Method `Account.add_transaction`: coerces an unknown category to `OTHER`, adds the
signed amount to the balance, appends the record capturing the post-mutation
balance, and bumps the category counter.  Returns the record and the new
state. -/
def add_transaction (now : Nat) (ttype : String) (amount : ℚ)
    (category : String) (description : String) (a : Account) : Txn × Account :=
  let cat := if category ∈ TRANSACTION_CATEGORIES then category else "OTHER"
  let newBal := a.balance + amount
  let t : Txn :=
    { time := now, ttype := ttype, amount := amount, balance_after := newBal,
      category := cat, description := description }
  (t, { a with
          balance := newBal
          transactions := a.transactions ++ [t]
          transaction_categories := bump_category cat a.transaction_categories })

/-- Method `BankingSystem.deposit`, restricted to the account it acts on (the
account-lookup plumbing, logging and CSV autosave are outside the core).
Note the source adds `amount` to the balance a second time after
`add_transaction` has already credited it. -/
def deposit (now : Nat) (amount : ℚ) (category : String) (description : String)
    (a : Account) : Option Account :=
  if amount ≤ 0 then none
  else
    let category := if 100000 < amount then "LARGE_DEPOSIT" else category
    let res := add_transaction now "DEPOSIT" amount category description a
    some { res.2 with balance := res.2.balance + amount }

/-- Method `BankingSystem.withdraw`, restricted to the account it acts on: validates
via `can_withdraw` and, on approval, performs `add_withdrawal`; a rejection
returns `none` with no mutation. -/
def withdraw (now : Nat) (amount : ℚ) (a : Account) : Option Account :=
  if (can_withdraw now amount a).1 then some (add_withdrawal now amount a)
  else none

/-- Method `BankingSystem.transfer_funds`, restricted to the two accounts it acts on:
fails when the status of either account is `Inactive` or when `can_withdraw`
rejects on the source; otherwise appends a `TRANSFER_OUT` record (negative
amount) on the source and a `TRANSFER_IN` record (positive amount) on the
destination, both directly through the ledger. -/
def transfer_funds (now : Nat) (amount : ℚ) (category : String)
    (description : String) (src dst : Account) : Option (Account × Account) :=
  if src.status = "Inactive" ∨ dst.status = "Inactive" then none
  else if (can_withdraw now amount src).1 then
    let from_category :=
      if ends_with category "_OUT" then category else category ++ "_OUT"
    let to_category :=
      if ends_with category "_IN" then category else category ++ "_IN"
    let fres := add_transaction now "TRANSFER_OUT" (-amount) from_category
      ("Transfer to account " ++ toString dst.account_number ++ ": " ++ description)
      src
    let tres := add_transaction now "TRANSFER_IN" amount to_category
      ("Transfer from account " ++ toString src.account_number ++ ": " ++ description)
      dst
    some (fres.2, tres.2)
  else none

/-- Method `BankingSystem.calculate_compound_interest`, restricted to the account it
acts on: a pure read returning `(interest_earned, amount)` or `none` when a
guard fails; `amount = principal * (1 + rate/100/n)^(n*years)`. -/
def calculate_compound_interest (rate : ℚ) (years : Nat)
    (compounding_frequency : Nat) (a : Account) : Option (ℚ × ℚ) :=
  if rate ≤ 0 ∨ years = 0 ∨ compounding_frequency = 0 then none
  else
    let principal := a.balance
    if principal ≤ 0 then none
    else
      let rate_decimal := rate / 100
      let amount := principal *
        (1 + rate_decimal / (compounding_frequency : ℚ)) ^
          (compounding_frequency * years)
      some (amount - principal, amount)

/-! ### Derived notions used to state the claims -/

/-- Whether the lockout gate of `verify_pin` is currently shut:
`locked_until` is set and lies in the future. -/
def is_locked (now : Nat) (a : Account) : Bool :=
  match a.locked_until with
  | some t => decide (now < t)
  | none => false

/-- The arguments of one direct ledger append (`Account.add_transaction`). -/
structure TxnEvent where
  time : Nat
  ttype : String
  amount : ℚ
  category : String
  description : String
deriving DecidableEq, Repr

/-- Replay a sequence of direct ledger appends. -/
def apply_events (evs : List TxnEvent) (a : Account) : Account :=
  evs.foldl
    (fun acc e => (add_transaction e.time e.ttype e.amount e.category e.description acc).2)
    a

/-- The ledger chain condition: the `balance_after` of each record equals the
`balance_after` of the previous record (the opening balance for the first
record) plus the signed amount of the record. -/
def chain_ok : ℚ → List Txn → Bool
  | _, [] => true
  | prev, t :: ts => decide (t.balance_after = prev + t.amount) && chain_ok t.balance_after ts

/-- The `balance_after` of the most recent ledger record, or the opening
balance when the ledger is empty. -/
def last_balance (opening : ℚ) : List Txn → ℚ
  | [] => opening
  | t :: ts => last_balance t.balance_after ts

/-- The ledger invariant of the spec: the chain condition holds and the
`balance` field of the account equals the most recent `balance_after`. -/
def ledger_invariant (opening : ℚ) (a : Account) : Bool :=
  chain_ok opening a.transactions &&
    decide (a.balance = last_balance opening a.transactions)

/-- The summary entry stored for a category `X`, if any. -/
def summary_lookup (X : String) (a : Account) : Option (String × Nat × ℚ × ℚ) :=
  (get_transaction_summary a).find? (fun e => e.1 == X)

/-! ### Concrete states used by witnesses and counterexamples -/

/-- A stand-in salted hash used only to instantiate witnesses; every theorem
is proved for an arbitrary hash function. -/
def hash0 : String → String → String := fun salt pin => salt ++ "#" ++ pin

/-- A fresh Savings account holding the category minimum 500. -/
def savings500 : Account := Account.create 1001 "Alice" 30 500 "Savings"

/-- A fresh Savings account holding 700. -/
def savings700 : Account := Account.create 1002 "Bob" 40 700 "Savings"

/-- A fresh Savings account holding 10000. -/
def savings10000 : Account := Account.create 1003 "Cara" 35 10000 "Savings"

/-- A fresh account holding 1000, used for the interest scenario. -/
def savings1000 : Account := Account.create 1004 "Dan" 28 1000 "Savings"

/-- A Current account whose status has been set to `Suspended`. -/
def suspendedCurrent : Account :=
  { Account.create 1005 "Eve" 45 2000 "Current" with status := "Suspended" }

/-- An account with a configured PIN hash that is currently locked
(`locked_until = 1800`). -/
def lockedAcct : Account :=
  { Account.create_full 1006 "Fay" 50 1000 "Savings" (some "zz") "s0" with
      locked_until := some 1800 }

/-- An account that reached lockout by three failures and whose lockout
(`locked_until = 1800`) has since expired. -/
def expiredLockAcct : Account :=
  { Account.create_full 1007 "Gil" 33 1000 "Savings" (some "zz") "s0" with
      locked_until := some 1800, login_attempts := 3 }

/-- An account carrying two `DEPOSIT` ledger records, for the summary witness. -/
def summaryAcct : Account :=
  { Account.create 1008 "Hal" 29 800 "Savings" with
      transactions :=
        [{ time := 1, ttype := "DEPOSIT", amount := 100, balance_after := 600,
           category := "DEPOSIT", description := "" },
         { time := 2, ttype := "DEPOSIT", amount := 200, balance_after := 800,
           category := "DEPOSIT", description := "" }] }

/-! ## Shared helper lemmas -/

lemma lower_savings : lower "Savings" = "savings" := by decide

lemma ew_transfer_out : ends_with "TRANSFER" "_OUT" = false := by decide

lemma ew_transfer_in : ends_with "TRANSFER" "_IN" = false := by decide

/-- When the lockout gate is open, `verify_pin` runs its post-gate body. -/
lemma verify_pin_open (H : String → String → String) (now : Nat) (pin : String)
    (a : Account) (hnl : is_locked now a = false) :
    verify_pin H now pin a = verify_pin_unlocked H now pin a := by
  cases hu : a.locked_until with
  | none => simp [verify_pin, hu]
  | some t =>
    have h : ¬ now < t := by simpa [is_locked, hu] using hnl
    simp [verify_pin, hu, h]

/-! ## C1 -/

/-- C1 (code-bug evidence): on a fresh Savings account with balance 500,
`deposit(200)` leaves balance 900 — not 700 — because the system credits the
amount a second time after `add_transaction`, while the single appended
DEPOSIT record carries `balance_after = 700`; a non-positive deposit is
rejected with no mutation. -/
theorem deposit_double_credit_bug :
    (deposit 0 200 "DEPOSIT" "" savings500).map
        (fun a => (a.balance, a.transactions.map (fun t => (t.ttype, t.amount, t.balance_after))))
      = some (900, [("DEPOSIT", 200, 700)])
    ∧ deposit 0 0 "DEPOSIT" "" savings500 = none := by
  constructor
  · norm_num [deposit, add_transaction, savings500, Account.create, Account.create_full,
      TRANSACTION_CATEGORIES]
  · norm_num [deposit]

/-! ## C2 -/

lemma chain_ok_append (opening : ℚ) (ts : List Txn) (t : Txn)
    (h : chain_ok opening ts = true)
    (ht : t.balance_after = last_balance opening ts + t.amount) :
    chain_ok opening (ts ++ [t]) = true ∧
      last_balance opening (ts ++ [t]) = t.balance_after := by
  induction ts generalizing opening with
  | nil => simp [chain_ok, last_balance] at *; exact ht
  | cons hd tl ih =>
    simp only [chain_ok, last_balance, List.cons_append, Bool.and_eq_true,
      decide_eq_true_eq] at h ⊢
    exact ⟨⟨h.1, (ih hd.balance_after h.2 ht).1⟩, (ih hd.balance_after h.2 ht).2⟩

lemma add_transaction_invariant (now : Nat) (ttype : String) (amount : ℚ)
    (category description : String) (opening : ℚ) (a : Account)
    (h : ledger_invariant opening a = true) :
    ledger_invariant opening (add_transaction now ttype amount category description a).2 = true := by
  simp only [ledger_invariant, Bool.and_eq_true, decide_eq_true_eq] at h ⊢
  obtain ⟨hch, hbal⟩ := h
  have hstep := chain_ok_append opening a.transactions
    { time := now, ttype := ttype, amount := amount, balance_after := a.balance + amount,
      category := if category ∈ TRANSACTION_CATEGORIES then category else "OTHER",
      description := description } hch (by simp [hbal])
  simp only [add_transaction]
  exact ⟨hstep.1, by simp [hstep.2]⟩

lemma apply_events_invariant (evs : List TxnEvent) (opening : ℚ) (a : Account)
    (h : ledger_invariant opening a = true) :
    ledger_invariant opening (apply_events evs a) = true := by
  induction evs generalizing a with
  | nil => simpa [apply_events] using h
  | cons e tl ih =>
    simp only [apply_events, List.foldl_cons] at *
    exact ih _ (add_transaction_invariant e.time e.ttype e.amount e.category e.description opening a h)

/-- C2 (amended): the ledger invariant — the chain condition together with
`balance = last balance_after (opening balance when empty)` — is preserved by
every sequence of direct ledger appends, and by `transfer_funds` on both of
its accounts; the system-level `deposit` and `withdraw` do not preserve it. -/
theorem ledger_invariant_preserved (o1 o2 o3 : ℚ) (evs : List TxnEvent)
    (a src dst : Account) (now : Nat) (amount : ℚ) (category description : String)
    (ha : ledger_invariant o1 a = true)
    (hsrc : ledger_invariant o2 src = true)
    (hdst : ledger_invariant o3 dst = true) :
    ledger_invariant o1 (apply_events evs a) = true
    ∧ ∀ src' dst',
        transfer_funds now amount category description src dst = some (src', dst') →
        ledger_invariant o2 src' = true ∧ ledger_invariant o3 dst' = true := by
  refine ⟨apply_events_invariant evs o1 a ha, ?_⟩
  intro src' dst' htr
  simp only [transfer_funds] at htr
  split at htr
  · exact absurd htr (by simp)
  · split at htr
    · simp only [Option.some.injEq, Prod.mk.injEq] at htr
      obtain ⟨h1, h2⟩ := htr
      subst h1; subst h2
      exact ⟨add_transaction_invariant _ _ _ _ _ o2 src hsrc,
             add_transaction_invariant _ _ _ _ _ o3 dst hdst⟩
    · exact absurd htr (by simp)

/-- C2 (counterexample): `withdraw` is a core account operation after which
the invariant fails — on a fresh Savings account opened at 700, `withdraw(100)`
debits the balance to 600 but appends no ledger record, so the balance no
longer equals the most recent `balance_after` (here the opening balance 700). -/
theorem withdraw_breaks_ledger_invariant :
    ledger_invariant 700 savings700 = true
    ∧ (withdraw 1000000 100 savings700).map
        (fun a => (ledger_invariant 700 a, a.balance, a.transactions))
      = some (false, 600, []) := by
  constructor
  · norm_num [ledger_invariant, chain_ok, last_balance, savings700, Account.create,
      Account.create_full]
  · norm_num [withdraw, can_withdraw, add_withdrawal, get_daily_withdrawal_total,
      ledger_invariant, chain_ok, last_balance, savings700, Account.create,
      Account.create_full, lower_savings]

theorem ledger_invariant_preserved_witness :
    ledger_invariant 500 (apply_events [⟨5, "DEPOSIT", 200, "DEPOSIT", ""⟩] savings500) = true :=
  (ledger_invariant_preserved 500 500 700 [⟨5, "DEPOSIT", 200, "DEPOSIT", ""⟩]
    savings500 savings500 savings700 0 100 "TRANSFER" ""
    (by norm_num [ledger_invariant, chain_ok, last_balance, savings500, Account.create,
      Account.create_full])
    (by norm_num [ledger_invariant, chain_ok, last_balance, savings500, Account.create,
      Account.create_full])
    (by norm_num [ledger_invariant, chain_ok, last_balance, savings700, Account.create,
      Account.create_full])).1

/-! ## C3 -/

lemma can_withdraw_eval (now : Nat) (amount : ℚ) (a : Account) (mb : ℚ)
    (hmb : (if lower a.account_type = "savings" then (500 : ℚ) else 1000) = mb) :
    can_withdraw now amount a =
      if a.status ≠ "Active" then (false, "Account is not active.")
      else if amount ≤ 0 then (false, "Withdrawal amount must be positive.")
      else if a.balance - amount < mb then
        (false, "Insufficient funds. Minimum balance of " ++ toString mb ++
          " must be maintained.")
      else if a.daily_limit < get_daily_withdrawal_total (now / 86400) a + amount then
        (false, "Daily withdrawal limit exceeded. You can withdraw up to " ++
          toString (a.daily_limit - get_daily_withdrawal_total (now / 86400) a) ++
          " more today.")
      else (true, "") := by
  simp only [can_withdraw, hmb]

/-- C3: `can_withdraw` approves iff the account is Active, the amount is
positive, the post-withdrawal balance stays at or above the category minimum
(500 for savings, 1000 otherwise), and the daily total plus the amount stays
within the daily limit of 50000; a rejection caused by the daily limit states
the remaining allowance `limit - dailyTotal()`; the check is a pure read, and
a rejected `withdraw` performs no mutation (returns `none`). -/
theorem can_withdraw_spec (now : Nat) (amount : ℚ) (a : Account)
    (hlim : a.daily_limit = 50000) :
    ((can_withdraw now amount a).1 = true ↔
      (a.status = "Active" ∧ 0 < amount ∧
        (if lower a.account_type = "savings" then (500 : ℚ) else 1000) ≤ a.balance - amount ∧
        get_daily_withdrawal_total (now / 86400) a + amount ≤ 50000))
    ∧ (a.status = "Active" → 0 < amount →
        (if lower a.account_type = "savings" then (500 : ℚ) else 1000) ≤ a.balance - amount →
        50000 < get_daily_withdrawal_total (now / 86400) a + amount →
        (can_withdraw now amount a).2 =
          "Daily withdrawal limit exceeded. You can withdraw up to " ++
            toString ((50000 : ℚ) - get_daily_withdrawal_total (now / 86400) a) ++
            " more today.")
    ∧ ((can_withdraw now amount a).1 = false → withdraw now amount a = none) := by
  set mb : ℚ := if lower a.account_type = "savings" then (500 : ℚ) else 1000 with hmb
  set tt : ℚ := get_daily_withdrawal_total (now / 86400) a with htt
  have heval := can_withdraw_eval now amount a mb hmb.symm
  refine ⟨?_, ?_, ?_⟩
  · rw [heval]
    split_ifs with h1 h2 h3 h4
    · exact ⟨fun h => absurd h (by simp), fun ⟨hA, _, _, _⟩ => absurd hA h1⟩
    · exact ⟨fun h => absurd h (by simp), fun ⟨_, hpos, _, _⟩ => absurd h2 (by linarith)⟩
    · exact ⟨fun h => absurd h (by simp), fun ⟨_, _, hmin, _⟩ => absurd h3 (by linarith)⟩
    · refine ⟨fun h => absurd h (by simp), fun ⟨_, _, _, hdl⟩ => ?_⟩
      rw [hlim] at h4; exact absurd h4 (by linarith)
    · refine ⟨fun _ => ⟨by tauto, by linarith [not_le.mp h2], by linarith [not_lt.mp h3], ?_⟩,
        fun _ => rfl⟩
      rw [hlim] at h4; linarith [not_lt.mp h4]
  · intro hst hpos hmin hdl
    rw [heval, if_neg (by simp [hst]), if_neg (by simp; linarith), if_neg (by simp; linarith),
      if_pos (by rw [hlim]; linarith), hlim]
  · intro hrej
    simp [withdraw, hrej]

theorem can_withdraw_spec_witness :
    (can_withdraw 1000000 100 savings700).1 = true :=
  ((can_withdraw_spec 1000000 100 savings700 rfl).1).mpr
    (by refine ⟨rfl, by norm_num, ?_, ?_⟩ <;>
      norm_num [savings700, Account.create, Account.create_full, lower_savings,
        get_daily_withdrawal_total])

/-! ## C4 -/

/-- C4: while locked, `verify_pin` raises `AccountLocked` and performs no hash
comparison (its result does not depend on the candidate PIN or on the hash
function); with no PIN hash configured it succeeds; a match resets the
failed-attempt count to 0 and succeeds; a mismatch increments the count, the
first and second mismatches returning the plain failure value `wrongPin` and
a mismatch reaching count 3 setting `locked_until = now + 30 minutes` and
raising `AccountLocked`. -/
theorem verify_pin_spec (H H2 : String → String → String) (now : Nat)
    (pin pin2 : String) (a : Account) :
    (∀ t, a.locked_until = some t → now < t →
        verify_pin H now pin a =
          (.lockedErr ("Account locked. Try again in " ++
            toString ((t - now) % 86400 / 60) ++ " minutes."), a)
        ∧ verify_pin H now pin a = verify_pin H2 now pin2 a)
    ∧ (is_locked now a = false → a.pin_hash = none →
        verify_pin H now pin a = (.ok, a))
    ∧ (∀ stored, is_locked now a = false → a.pin_hash = some stored →
        H a.salt pin = stored →
        verify_pin H now pin a = (.ok, { a with login_attempts := 0 }))
    ∧ (∀ stored, is_locked now a = false → a.pin_hash = some stored →
        H a.salt pin ≠ stored →
        ((a.login_attempts + 1 < 3 →
            verify_pin H now pin a =
              (.wrongPin, { a with
                             login_attempts := a.login_attempts + 1,
                             last_login_attempt := some now }))
          ∧ (3 ≤ a.login_attempts + 1 →
            verify_pin H now pin a =
              (.lockedErr "Too many failed attempts. Account locked for 30 minutes.",
               { a with
                  login_attempts := a.login_attempts + 1,
                  last_login_attempt := some now,
                  locked_until := some (now + 1800) })))) := by
  refine ⟨?_, ?_, ?_, ?_⟩
  · intro t ht hlt
    simp [verify_pin, ht, hlt]
  · intro hnl hph
    rw [verify_pin_open H now pin a hnl]
    simp [verify_pin_unlocked, hph]
  · intro stored hnl hph hmatch
    rw [verify_pin_open H now pin a hnl]
    simp [verify_pin_unlocked, hph, hmatch]
  · intro stored hnl hph hne
    constructor
    · intro hlt3
      rw [verify_pin_open H now pin a hnl]
      simp only [verify_pin_unlocked, hph, if_neg hne]
      rw [if_neg (by simp only [not_le]; omega)]
    · intro hge3
      rw [verify_pin_open H now pin a hnl]
      simp only [verify_pin_unlocked, hph, if_neg hne]
      rw [if_pos (by simpa using hge3)]

theorem verify_pin_spec_witness :
    verify_pin hash0 60 "1234" lockedAcct =
      (.lockedErr ("Account locked. Try again in " ++
        toString ((1800 - 60) % 86400 / 60) ++ " minutes."), lockedAcct)
    ∧ verify_pin hash0 60 "1234" lockedAcct = verify_pin hash0 60 "0000" lockedAcct :=
  (verify_pin_spec hash0 hash0 60 "1234" "0000" lockedAcct).1 1800 rfl (by norm_num)

/-! ## C5 -/

lemma date_in_window (now d : Nat) (h : d / 86400 = now / 86400) :
    (now : Int) - 604800 < (d : Int) := by omega

lemma filter_sum_of_imp (P Q : Nat × ℚ → Bool) (l : List (Nat × ℚ))
    (h : ∀ p, P p = true → Q p = true) :
    (((l.filter Q).filter P).map (fun p => p.2)).sum
      = ((l.filter P).map (fun p => p.2)).sum := by
  induction l with
  | nil => rfl
  | cons hd tl ih =>
    by_cases hp : P hd = true
    · rw [List.filter_cons_of_pos (h hd hp), List.filter_cons_of_pos hp,
        List.filter_cons_of_pos hp, List.map_cons, List.map_cons, List.sum_cons,
        List.sum_cons, ih]
    · by_cases hq : Q hd = true
      · rw [List.filter_cons_of_pos hq, List.filter_cons_of_neg (by simp [hp]),
          List.filter_cons_of_neg (by simp [hp]), ih]
      · rw [List.filter_cons_of_neg (by simp [hq]), List.filter_cons_of_neg (by simp [hp]), ih]

lemma dw_sum_window (now : Nat) (l : List (Nat × ℚ)) :
    (((l.filter (fun p => (now : Int) - 604800 < (p.1 : Int))).filter
        (fun p => p.1 / 86400 == now / 86400)).map (fun p => p.2)).sum
      = ((l.filter (fun p => p.1 / 86400 == now / 86400)).map (fun p => p.2)).sum := by
  refine filter_sum_of_imp _ _ l ?_
  intro p hp
  simp only [beq_iff_eq] at hp
  simpa using date_in_window now p.1 hp

/-- C5: on an approved amount, `add_withdrawal` debits the balance by exactly
the amount, appends a `(now, amount)` event and then purges events older than
7 days; the daily total for today strictly increases by exactly the amount
(the amount is positive since it was approved); every retained event is
within the 7-day window, and an event recorded more than 7 days ago has a
calendar date different from today — so it never contributes to the total for
today — and is no longer retained. -/
theorem add_withdrawal_spec (now : Nat) (amount : ℚ) (a : Account)
    (happrove : (can_withdraw now amount a).1 = true) :
    (add_withdrawal now amount a).balance = a.balance - amount
    ∧ 0 < amount
    ∧ (add_withdrawal now amount a).daily_withdrawals =
        (a.daily_withdrawals ++ [(now, amount)]).filter
          (fun p => (now : Int) - 604800 < (p.1 : Int))
    ∧ get_daily_withdrawal_total (now / 86400) (add_withdrawal now amount a) =
        get_daily_withdrawal_total (now / 86400) a + amount
    ∧ (∀ p ∈ (add_withdrawal now amount a).daily_withdrawals,
        (now : Int) - 604800 < (p.1 : Int))
    ∧ (∀ p : Nat × ℚ, p.1 + 604800 < now →
        p.1 / 86400 ≠ now / 86400 ∧ p ∉ (add_withdrawal now amount a).daily_withdrawals) := by
  have hpos : 0 < amount := by
    by_contra hle
    simp only [can_withdraw] at happrove
    rw [if_neg ?_, if_pos (not_lt.mp (by simpa using hle))] at happrove
    · exact absurd happrove (by simp)
    · intro hst
      rw [if_pos hst] at happrove
      exact absurd happrove (by simp)
  refine ⟨rfl, hpos, rfl, ?_, ?_, ?_⟩
  · simp only [get_daily_withdrawal_total, add_withdrawal]
    rw [dw_sum_window now (a.daily_withdrawals ++ [(now, amount)])]
    simp [List.filter_append]
  · intro p hp
    simp only [add_withdrawal, List.mem_filter, decide_eq_true_eq] at hp
    exact hp.2
  · intro p hold
    refine ⟨by omega, ?_⟩
    intro hp
    simp only [add_withdrawal, List.mem_filter, decide_eq_true_eq] at hp
    omega

theorem add_withdrawal_spec_witness :
    (add_withdrawal 1000000 100 savings700).balance = 600
    ∧ get_daily_withdrawal_total (1000000 / 86400) (add_withdrawal 1000000 100 savings700)
        = get_daily_withdrawal_total (1000000 / 86400) savings700 + 100 := by
  have h := add_withdrawal_spec 1000000 100 savings700
    (by norm_num [can_withdraw, savings700, Account.create, Account.create_full,
      lower_savings, get_daily_withdrawal_total])
  refine ⟨?_, h.2.2.2.1⟩
  rw [h.1]
  norm_num [savings700, Account.create, Account.create_full]

/-! ## C6 -/

/-- C6 (counterexample): `transfer_funds` only rejects status `Inactive`, so a
transfer to a `Suspended` — hence not Active — destination account succeeds. -/
theorem transfer_to_suspended_succeeds :
    suspendedCurrent.status ≠ "Active"
    ∧ (transfer_funds 0 100 "TRANSFER" "" savings10000 suspendedCurrent).isSome = true := by
  refine ⟨by decide, ?_⟩
  norm_num [transfer_funds, can_withdraw, get_daily_withdrawal_total, add_transaction,
    savings10000, suspendedCurrent, Account.create, Account.create_full, lower_savings,
    ew_transfer_out, ew_transfer_in]
  all_goals decide

/-- C6 (amended): `transfer_funds` fails when either account is `Inactive`
(a `Suspended` destination is not blocked) or when `can_withdraw` rejects on
the source (which requires the source to be Active); on approval it appends
exactly one TRANSFER_OUT record with signed amount `-amount` on the source and
exactly one TRANSFER_IN record with signed amount `+amount` on the
destination, and records nothing in the withdrawal limiter, so the daily
withdrawal total of the source is unchanged. -/
theorem transfer_funds_spec (now : Nat) (amount : ℚ) (category description : String)
    (src dst : Account) :
    ((src.status = "Inactive" ∨ dst.status = "Inactive") →
        transfer_funds now amount category description src dst = none)
    ∧ ((can_withdraw now amount src).1 = false →
        transfer_funds now amount category description src dst = none)
    ∧ (∀ src' dst',
        transfer_funds now amount category description src dst = some (src', dst') →
        (∃ t, src'.transactions = src.transactions ++ [t] ∧
          t.ttype = "TRANSFER_OUT" ∧ t.amount = -amount)
        ∧ (∃ t, dst'.transactions = dst.transactions ++ [t] ∧
          t.ttype = "TRANSFER_IN" ∧ t.amount = amount)
        ∧ src'.daily_withdrawals = src.daily_withdrawals
        ∧ ∀ date, get_daily_withdrawal_total date src' =
            get_daily_withdrawal_total date src) := by
  refine ⟨?_, ?_, ?_⟩
  · intro h
    simp only [transfer_funds, if_pos h]
  · intro h
    simp only [transfer_funds, h]
    split
    · rfl
    · simp
  · intro src' dst' htr
    simp only [transfer_funds] at htr
    split at htr
    · exact absurd htr (by simp)
    · split at htr
      · simp only [Option.some.injEq, Prod.mk.injEq] at htr
        obtain ⟨h1, h2⟩ := htr
        subst h1; subst h2
        refine ⟨⟨_, rfl, rfl, rfl⟩, ⟨_, rfl, rfl, rfl⟩, rfl, fun date => rfl⟩
      · exact absurd htr (by simp)

theorem transfer_funds_spec_witness :
    transfer_funds 0 100 "TRANSFER" "" { savings10000 with status := "Inactive" }
      savings700 = none :=
  (transfer_funds_spec 0 100 "TRANSFER" "" { savings10000 with status := "Inactive" }
    savings700).1 (Or.inl rfl)

/-! ## C7 -/

lemma cats_nodup : TRANSACTION_CATEGORIES.Nodup := by decide

lemma mem_cats_ne_empty (X : String) (hX : X ∈ TRANSACTION_CATEGORIES) : X ≠ "" := by
  fin_cases hX <;> decide

lemma find?_filterMap_not_mem (f : String → Option (String × Nat × ℚ × ℚ))
    (hkey : ∀ c e, f c = some e → e.1 = c) (l : List String) (X : String)
    (hX : X ∉ l) :
    (l.filterMap f).find? (fun e => e.1 == X) = none := by
  induction l with
  | nil => rfl
  | cons c tl ih =>
    have hcX : c ≠ X := fun h => hX (h ▸ List.mem_cons_self c tl)
    have hXtl : X ∉ tl := fun h => hX (List.mem_cons_of_mem c h)
    cases hfc : f c with
    | none =>
      rw [List.filterMap_cons_none hfc]
      exact ih hXtl
    | some e =>
      rw [List.filterMap_cons_some hfc, List.find?_cons_of_neg _
        (by simp [hkey c e hfc, hcX])]
      exact ih hXtl

lemma find?_filterMap_mem (f : String → Option (String × Nat × ℚ × ℚ))
    (hkey : ∀ c e, f c = some e → e.1 = c) (l : List String) (X : String)
    (hX : X ∈ l) (hnd : l.Nodup) :
    (l.filterMap f).find? (fun e => e.1 == X) = f X := by
  induction l with
  | nil => cases hX
  | cons c tl ih =>
    rcases List.mem_cons.mp hX with rfl | hmem
    · have hXtl : X ∉ tl := (List.nodup_cons.mp hnd).1
      cases hfX : f X with
      | none =>
        rw [List.filterMap_cons_none hfX]
        exact find?_filterMap_not_mem f hkey tl X hXtl
      | some e =>
        rw [List.filterMap_cons_some hfX, List.find?_cons_of_pos _
          (by simp [hkey X e hfX])]
    · have hcX : c ≠ X := by rintro rfl; exact (List.nodup_cons.mp hnd).1 hmem
      have htl := ih hmem (List.nodup_cons.mp hnd).2
      cases hfc : f c with
      | none =>
        rw [List.filterMap_cons_none hfc]
        exact htl
      | some e =>
        rw [List.filterMap_cons_some hfc, List.find?_cons_of_neg _
          (by simp [hkey c e hfc, hcX])]
        exact htl

/-- C7: for every category `X` of the fixed enumeration, the summary contains
an entry for `X` iff at least one ledger record has category `X`; in that case
the count of the entry is the length of the category-filtered history, the
total is the sum of the signed amounts of that history, and the average is
the total divided by the count. -/
theorem summary_spec (a : Account) (X : String) (hX : X ∈ TRANSACTION_CATEGORIES) :
    (get_transaction_history none (some X) a = [] → summary_lookup X a = none)
    ∧ (get_transaction_history none (some X) a ≠ [] →
        summary_lookup X a = some (X,
          (get_transaction_history none (some X) a).length,
          ((get_transaction_history none (some X) a).map (fun t => t.amount)).sum,
          ((get_transaction_history none (some X) a).map (fun t => t.amount)).sum /
            ((get_transaction_history none (some X) a).length : ℚ))) := by
  have hne : X ≠ "" := mem_cats_ne_empty X hX
  have hist_eq : get_transaction_history none (some X) a =
      a.transactions.filter (fun t => t.category == X) := by
    simp [get_transaction_history, hne, hX]
  have hkey : ∀ c e,
      (fun category =>
        let category_txns := a.transactions.filter (fun t => t.category == category)
        if category_txns.isEmpty then none
        else
          let count := category_txns.length
          let total := (category_txns.map (fun t => t.amount)).sum
          some (category, count, total, if 0 < count then total / (count : ℚ) else 0)) c
        = some e → e.1 = c := by
    intro c e h
    simp only at h
    split at h
    · exact absurd h (by simp)
    · simp only [Option.some.injEq] at h
      rw [← h]
  have hlook : summary_lookup X a =
      (let category_txns := a.transactions.filter (fun t => t.category == X)
       if category_txns.isEmpty then none
       else
         let count := category_txns.length
         let total := (category_txns.map (fun t => t.amount)).sum
         some (X, count, total, if 0 < count then total / (count : ℚ) else 0)) := by
    unfold summary_lookup get_transaction_summary
    exact find?_filterMap_mem _ hkey TRANSACTION_CATEGORIES X hX cats_nodup
  rw [hist_eq]
  constructor
  · intro hemp
    rw [hlook]
    simp [hemp]
  · intro hnemp
    rw [hlook]
    simp only
    rw [if_neg (by simpa [List.isEmpty_iff] using hnemp)]
    have hlen : 0 < (a.transactions.filter (fun t => t.category == X)).length :=
      List.length_pos.mpr hnemp
    rw [if_pos hlen]

theorem summary_spec_witness :
    summary_lookup "DEPOSIT" summaryAcct = some ("DEPOSIT", 2, 300, 150) := by
  have h := (summary_spec summaryAcct "DEPOSIT" (by decide)).2
    (by simp [get_transaction_history, summaryAcct, Account.create, Account.create_full,
      TRANSACTION_CATEGORIES])
  rw [h]
  norm_num [get_transaction_history, summaryAcct, Account.create, Account.create_full,
    TRANSACTION_CATEGORIES]

/-! ## C8 -/

/-- C8: `set_pin` fails unless the PIN is a 4-character numeric string; on
success it stores the fresh salt and the new salted hash and changes no other
field — in particular it clears neither an active lockout nor the
failed-attempt count. -/
theorem set_pin_spec (H : String → String → String) (fresh_salt pin : String)
    (a : Account) :
    (¬ (pin_isdigit pin = true ∧ pin.length = 4) →
        set_pin H fresh_salt pin a = none)
    ∧ (pin_isdigit pin = true → pin.length = 4 →
        set_pin H fresh_salt pin a =
          some { a with salt := fresh_salt, pin_hash := some (H fresh_salt pin) })
    ∧ (∀ a', set_pin H fresh_salt pin a = some a' →
        a'.locked_until = a.locked_until ∧ a'.login_attempts = a.login_attempts
        ∧ a'.last_login_attempt = a.last_login_attempt
        ∧ a'.balance = a.balance ∧ a'.status = a.status
        ∧ a'.transactions = a.transactions
        ∧ a'.daily_withdrawals = a.daily_withdrawals
        ∧ a'.daily_limit = a.daily_limit
        ∧ a'.transaction_categories = a.transaction_categories
        ∧ a'.account_number = a.account_number ∧ a'.name = a.name
        ∧ a'.age = a.age ∧ a'.account_type = a.account_type
        ∧ a'.salt = fresh_salt ∧ a'.pin_hash = some (H fresh_salt pin)) := by
  refine ⟨?_, ?_, ?_⟩
  · intro h
    rcases not_and_or.mp h with h1 | h2
    · have h1f : pin_isdigit pin = false := by simpa using h1
      simp [set_pin, h1f]
    · simp [set_pin, h2]
  · intro h1 h2
    simp only [set_pin]
    rw [if_neg (by simp [h1, h2])]
  · intro a' ha'
    simp only [set_pin] at ha'
    split at ha'
    · exact absurd ha' (by simp)
    · simp only [Option.some.injEq] at ha'
      subst ha'
      exact ⟨rfl, rfl, rfl, rfl, rfl, rfl, rfl, rfl, rfl, rfl, rfl, rfl, rfl, rfl, rfl⟩

theorem set_pin_spec_witness :
    set_pin hash0 "ab" "1234" lockedAcct =
      some { lockedAcct with salt := "ab", pin_hash := some (hash0 "ab" "1234") }
    ∧ set_pin hash0 "ab" "12a4" lockedAcct = none :=
  ⟨(set_pin_spec hash0 "ab" "1234" lockedAcct).2.1 (by decide) (by decide),
   (set_pin_spec hash0 "ab" "12a4" lockedAcct).1 (by decide)⟩

/-! ## C9 -/

/-- C9: the compound-interest calculation fails when the rate, years,
compounding frequency, or balance is non-positive; otherwise it is the pure
read `(total - principal, total)` with
`total = principal * (1 + rate/100/n)^(n*years)`; for principal 1000 at 10%
over 1 year compounded annually the interest is exactly 100 and the total
exactly 1100. -/
theorem compound_interest_spec (rate : ℚ) (years n : Nat) (a : Account) :
    ((rate ≤ 0 ∨ years = 0 ∨ n = 0 ∨ a.balance ≤ 0) →
        calculate_compound_interest rate years n a = none)
    ∧ (0 < rate → years ≠ 0 → n ≠ 0 → 0 < a.balance →
        calculate_compound_interest rate years n a =
          some (a.balance * (1 + rate / 100 / (n : ℚ)) ^ (n * years) - a.balance,
                a.balance * (1 + rate / 100 / (n : ℚ)) ^ (n * years)))
    ∧ (a.balance = 1000 → calculate_compound_interest 10 1 1 a = some (100, 1100)) := by
  refine ⟨?_, ?_, ?_⟩
  · intro h
    simp only [calculate_compound_interest]
    rcases h with h | h | h | h
    · rw [if_pos (Or.inl h)]
    · rw [if_pos (Or.inr (Or.inl h))]
    · rw [if_pos (Or.inr (Or.inr h))]
    · split
      · rfl
      · simp [h]
  · intro h1 h2 h3 h4
    simp only [calculate_compound_interest]
    rw [if_neg (by push_neg; exact ⟨by linarith, h2, h3⟩), if_neg (by linarith)]
  · intro hbal
    simp only [calculate_compound_interest]
    rw [if_neg (by norm_num), if_neg (by rw [hbal]; norm_num)]
    rw [hbal]
    norm_num

theorem compound_interest_spec_witness :
    calculate_compound_interest 10 1 1 savings1000 = some (100, 1100) :=
  (compound_interest_spec 10 1 1 savings1000).2.2 rfl

/-! ## C10 -/

/-- C10: an account that reached lockout with three failures and whose lockout
has expired still carries `login_attempts = 3`, since expiry does not reset
the counter; so one further mismatch — not three — immediately sets a fresh
30-minute lockout and raises `AccountLocked`. -/
theorem relock_after_expiry (H : String → String → String) (now T : Nat)
    (pin stored : String) (a : Account)
    (hatt : a.login_attempts = 3) (hlock : a.locked_until = some T)
    (hexp : T ≤ now) (hph : a.pin_hash = some stored)
    (hne : H a.salt pin ≠ stored) :
    verify_pin H now pin a =
      (.lockedErr "Too many failed attempts. Account locked for 30 minutes.",
       { a with
          login_attempts := a.login_attempts + 1,
          last_login_attempt := some now,
          locked_until := some (now + 1800) }) := by
  have hnl : is_locked now a = false := by
    simp [is_locked, hlock]; omega
  rw [verify_pin_open H now pin a hnl]
  simp only [verify_pin_unlocked, hph, if_neg hne]
  rw [if_pos (by omega)]

theorem relock_after_expiry_witness :
    verify_pin hash0 2000 "1234" expiredLockAcct =
      (.lockedErr "Too many failed attempts. Account locked for 30 minutes.",
       { expiredLockAcct with
          login_attempts := 4,
          last_login_attempt := some 2000,
          locked_until := some 3800 }) :=
  relock_after_expiry hash0 2000 1800 "1234" "zz" expiredLockAcct rfl rfl
    (by norm_num) rfl (by decide)

end GDB
